import Mathlib

/-
Verification of the quote-resolution logic of src/app.py (market dashboard).

Prices are modelled as exact rationals (ℚ).  Pandas DataFrames of price rows
are modelled as lists of `Row` (timestamp, optional Open, optional Close);
`dropna(subset=["Close"])` becomes a filter on `closePx.isSome`.  The upstream
provider (yfinance / Tiingo HTTP) is an oracle packaged in `Env`: each fetcher
receives the provider's raw outcome (an exception, a `None`, or a frame of
rows) and post-processes it exactly as the Python code does.  Python's
float division raising `ZeroDivisionError` on a zero divisor is modelled by
`PyResult`, an explicit ok-or-raised result type.
-/

namespace MarketDashboard

/-- One row of a price DataFrame: timestamp (already normalized to a single
reference timezone, so `tz_localize`/`tz_convert` in the source are identity
on it), optional Open price, optional Close price. -/
structure Row where
  ts : Nat
  openPx : Option ℚ
  closePx : Option ℚ
deriving DecidableEq

/-- `df.dropna(subset=["Close"])`: keep the rows whose Close is present. -/
def dropnaClose (df : List Row) : List Row :=
  df.filter fun r => r.closePx.isSome

/-- `df["Close"].dropna()` keeping the index: the (timestamp, close) pairs of
the rows whose Close is present. -/
def closePairs (df : List Row) : List (Nat × ℚ) :=
  df.filterMap fun r => r.closePx.map fun c => (r.ts, c)

/-- The values of `df["Close"].dropna()`. -/
def closeVals (df : List Row) : List ℚ :=
  (closePairs df).map Prod.snd

/-- The values of `df["Open"].dropna()`. -/
def openVals (df : List Row) : List ℚ :=
  df.filterMap Row.openPx

/-- Exceptions the upstream provider may raise (yfinance / requests):
rate limiting versus anything else. -/
inductive UpErr where
  | rateLimited
  | transient
deriving DecidableEq

/-- Raw outcome of one upstream history call: an exception, a `None`
result, or a DataFrame of rows. -/
inductive YfResult where
  | raises (e : UpErr)
  | noneResult
  | frame (rows : List Row)
deriving DecidableEq

/-- The Python exceptions that can escape the resolution code itself. -/
inductive PyErr where
  | zeroDivisionError
deriving DecidableEq

/-- Result of running a piece of Python code: a value, or a raised error. -/
inductive PyResult (α : Type) where
  | ok (a : α)
  | raised (e : PyErr)
deriving DecidableEq

/-- The external world as seen by the fetchers:
* `intradayHist sym interval` — outcome of
  `yf.Ticker(sym).history(period="1d", interval=interval)` (src/app.py:257);
* `tiingoKey` — `get_tiingo_key()` (src/app.py:163-171);
* `tiingoHttp sym days` — the rows assembled by the Tiingo candidate-URL loop
  (src/app.py:183-218) before the final `dropna`; every failure path of that
  loop (bad status, empty JSON, missing columns, exception) is the empty list;
* `dailyYahoo sym days` — outcome of
  `yf.Ticker(sym).history(start=…, end=…, interval="1d")` (src/app.py:233). -/
structure Env where
  intradayHist : String → String → YfResult
  tiingoKey : Option String
  tiingoHttp : String → Nat → List Row
  dailyYahoo : String → Nat → YfResult

/-- `TTL_DAILY` (src/app.py:157). -/
def TTL_DAILY : Nat := 180

/-- `TTL_INTRADAY` (src/app.py:158). -/
def TTL_INTRADAY : Nat := 180

/-- `fetch_daily_tiingo` (src/app.py:174-223): without an API key the result
is the empty frame; otherwise the frame produced by the HTTP loop, with rows
missing a Close dropped (`dropna(subset=["Close"])`, src/app.py:217). -/
def fetch_daily_tiingo (env : Env) (symbol : String) (days : Nat) : List Row :=
  match env.tiingoKey with
  | none => []
  | some _ => dropnaClose (env.tiingoHttp symbol days)

/-- `fetch_daily_yahoo` (src/app.py:229-240): any exception or `None`/empty
result becomes the empty frame; otherwise rows missing a Close are dropped. -/
def fetch_daily_yahoo (env : Env) (symbol : String) (days : Nat) : List Row :=
  match env.dailyYahoo symbol days with
  | .raises _ => []
  | .noneResult => []
  | .frame rows => dropnaClose rows

/-- `fetch_daily` (src/app.py:242-248): only when `provider == "tiingo"` is
Tiingo tried first, and its frame is kept only if it is non-empty with at
least 2 non-null closes; every other case falls back to Yahoo. -/
def fetch_daily (env : Env) (symbol : String) (days : Nat) (provider : String) :
    List Row :=
  if provider = "tiingo" then
    let df_t := fetch_daily_tiingo env symbol days
    if ¬df_t.isEmpty ∧ 2 ≤ (closeVals df_t).length then df_t
    else fetch_daily_yahoo env symbol days
  else fetch_daily_yahoo env symbol days

/-- The interval tiers tried by `fetch_intraday` (src/app.py:255), in source
order, each requested with `period="1d"`. -/
def intradayIntervals : List String := ["1m", "2m", "5m", "15m"]

/-- The tier loop of `fetch_intraday` (src/app.py:255-269), instrumented with
the list of upstream requests it issues.  Each iteration: an exception is
caught and the next tier tried (src/app.py:267-268); a `None` or empty frame
means `continue` (src/app.py:258-259); rows missing a Close are dropped
(src/app.py:262) and if nothing is left the next tier is tried
(src/app.py:263-264); otherwise the frame is returned tagged with its
interval (src/app.py:265-266). -/
def fetchIntradayGo (hist : String → YfResult) :
    List String → Option (List Row × String) × List String
  | [] => (none, [])
  | interval :: rest =>
    match hist interval with
    | .raises _ =>
        let r := fetchIntradayGo hist rest
        (r.1, interval :: r.2)
    | .noneResult =>
        let r := fetchIntradayGo hist rest
        (r.1, interval :: r.2)
    | .frame rows =>
        if rows.isEmpty then
          let r := fetchIntradayGo hist rest
          (r.1, interval :: r.2)
        else
          let df := dropnaClose rows
          if df.isEmpty then
            let r := fetchIntradayGo hist rest
            (r.1, interval :: r.2)
          else (some (df, interval), [interval])

/-- `fetch_intraday` (src/app.py:254-269): the value returned to the caller
(`none` models the final empty DataFrame). -/
def fetch_intraday (env : Env) (symbol : String) : Option (List Row × String) :=
  (fetchIntradayGo (env.intradayHist symbol) intradayIntervals).1

/-- The upstream requests `fetch_intraday` makes for one symbol, in order. -/
def fetchIntradayCalls (env : Env) (symbol : String) : List String :=
  (fetchIntradayGo (env.intradayHist symbol) intradayIntervals).2

/-- `safe_last_price` (src/app.py:274-279). -/
def safe_last_price (df : List Row) : Option ℚ :=
  (closeVals df).getLast?

/-- `safe_first_open` (src/app.py:281-286). -/
def safe_first_open (df : List Row) : Option ℚ :=
  (openVals df).head?

/-- Python truthiness of an `Optional[str]`: `None` and `""` are falsy. -/
def truthy : Option String → Bool
  | none => false
  | some r => !r.isEmpty

/-- Python `rt_symbol or symbol` (src/app.py:298). -/
def pyOr (rt : Option String) (symbol : String) : String :=
  match rt with
  | none => symbol
  | some r => if r.isEmpty then symbol else r

/-- `daily.empty or daily["Close"].dropna().shape[0] < 2`
(src/app.py:327 and src/app.py:330). -/
def unusableDaily (df : List Row) : Bool :=
  df.isEmpty || decide ((closeVals df).length < 2)

/-- The dict `{"ok": …, …}` returned by `compute_card`; keys absent from a
given return site are `none`.  `date_label` (a `strftime` rendering of
`last_ts`) is not modelled separately from `last_ts`. -/
structure Card where
  ok : Bool
  reason : Option String := none
  mode : Option String := none
  interval : Option String := none
  now : Option ℚ := none
  base : Option ℚ := none
  chg : Option ℚ := none
  pct : Option ℚ := none
  series : Option (List (Nat × ℚ)) := none
  last_ts : Option Nat := none
  rt_used : Option Bool := none
deriving DecidableEq

/-- The failure dict `{"ok": False, "reason": "取得できませんでした"}`
(src/app.py:331). -/
def failCard : Card :=
  { ok := false, reason := some "取得できませんでした" }

/-- `closes.tail(30)` (src/app.py:348): the last 30 elements. -/
def tail30 (l : List (Nat × ℚ)) : List (Nat × ℚ) :=
  l.drop (l.length - 30)

/-- The success dict built at src/app.py:340-352 from the chosen daily frame,
with `now = closes.iloc[-1]`, `base = prev = closes.iloc[-2]`,
`chg = now - prev`, `pct = (now / prev - 1.0) * 100.0`,
`last_ts = closes.index[-1]`, `rt_used = bool(rt_symbol)`. -/
def okCard (daily : List Row) (rt_symbol : Option String) (t1 : Nat)
    (c1 c2 : ℚ) : Card :=
  { ok := true
    mode := some "CLOSE"
    interval := some "1d"
    now := some c1
    base := some c2
    chg := some (c1 - c2)
    pct := some ((c1 / c2 - 1) * 100)
    series := some (tail30 (closePairs daily))
    last_ts := some t1
    rt_used := some (truthy rt_symbol) }

/-- The daily frame `compute_card` ends up using (src/app.py:325-328): the
primary symbol's daily fetch, replaced by the `rt_symbol` fetch when the
primary frame is unusable and `rt_symbol` is truthy. -/
def dailySelected (env : Env) (symbol : String) (rt_symbol : Option String)
    (provider : String) : List Row :=
  let daily1 := fetch_daily env symbol 15 provider
  if unusableDaily daily1 && truthy rt_symbol then
    fetch_daily env (rt_symbol.getD "") 15 provider
  else daily1

/-- `compute_card` (src/app.py:291-352).  The intraday fetch at
src/app.py:299 is issued but its result is never consumed, because the whole
INTRADAY branch (src/app.py:301-321) is commented out in the source; the
`fetch_daily(...)` call at src/app.py:300 passes the `Ellipsis` object, whose
result is discarded and overwritten at src/app.py:325, so it has no effect on
the returned value.  `now / prev` at src/app.py:337 raises
`ZeroDivisionError` when the second-to-last non-null close is zero; nothing
in `compute_card` catches it. -/
def compute_card (env : Env) (symbol : String) (rt_symbol : Option String)
    (provider : String) : PyResult Card :=
  let _intra := fetch_intraday env (pyOr rt_symbol symbol)
  let daily := dailySelected env symbol rt_symbol provider
  if unusableDaily daily then .ok failCard
  else
    match (closePairs daily).reverse with
    | (t1, c1) :: (_t2, c2) :: _ =>
        if c2 = 0 then .raised .zeroDivisionError
        else .ok (okCard daily rt_symbol t1 c1 c2)
    | _ => .ok failCard

/-! ## TTL cache model

The memoization of the fetchers comes from the `@st.cache_data(ttl=…)`
decorators (src/app.py:173, 228, 253); its semantics live in the Streamlit
framework, not in this repository, so it is modelled from the spec. -/

/-- Modelled from the spec: the state of TimeSeriesCache (spec §4.3), which
`st.cache_data` realizes.  A map from (symbol, tier-class) keys to the most
recent fetch result plus its fetch timestamp, kept as an association list
with the newest entry first (last-write-wins). -/
structure CacheState where
  entries : List ((String × String) × (List Row × Nat))
deriving DecidableEq

/-- The newest cache entry for a key, if any. -/
def lookupEntry (st : CacheState) (key : String × String) :
    Option (List Row × Nat) :=
  (st.entries.find? fun e => decide (e.1 = key)).map Prod.snd

/-- Modelled from the spec: `getOrFetch` of TimeSeriesCache (spec §4.3),
the behavior of a `st.cache_data(ttl=…)`-decorated fetcher.  A cached entry
is served as-is while `now - fetchedAt < ttl`; otherwise the underlying
fetcher is invoked again and the entry replaced.  Returns the value, the new
cache state, and the number of upstream invocations made (0 or 1). -/
def getOrFetch (fetcher : String × String → List Row) (ttl : Nat)
    (key : String × String) (now : Nat) (st : CacheState) :
    List Row × CacheState × Nat :=
  match lookupEntry st key with
  | some (v, fetchedAt) =>
      if now - fetchedAt < ttl then (v, st, 0)
      else
        let v := fetcher key
        (v, ⟨(key, (v, now)) :: st.entries⟩, 1)
  | none =>
      let v := fetcher key
      (v, ⟨(key, (v, now)) :: st.entries⟩, 1)

/-- Total number of upstream invocations made by a sequence of cache reads,
each given as a (key, call-time) pair, starting from a given cache state. -/
def upstreamCount (fetcher : String × String → List Row) (ttl : Nat) :
    List ((String × String) × Nat) → CacheState → Nat
  | [], _ => 0
  | (key, t) :: rest, st =>
      let r := getOrFetch fetcher ttl key t st
      r.2.2 + upstreamCount fetcher ttl rest r.2.1

/-! ## Concrete inputs used by the witnesses and counterexamples -/

/-- A daily frame with the two closes 100 and 105. -/
def rowsA : List Row := [⟨1, none, some 100⟩, ⟨2, none, some 105⟩]

/-- A 12-point intraday frame, every row with Open 300 and Close 305. -/
def intraRows12 : List Row :=
  (List.range 12).map fun i => ⟨i, some 300, some 305⟩

/-- Environment whose daily fetch yields `rowsA` and whose intraday fetch
yields nothing. -/
def envA : Env :=
  { intradayHist := fun _ _ => .frame []
    tiingoKey := none
    tiingoHttp := fun _ _ => []
    dailyYahoo := fun _ _ => .frame rowsA }

/-- Environment with a rich (12-point) intraday series and a 2-point daily
series. -/
def envC1 : Env :=
  { intradayHist := fun _ _ => .frame intraRows12
    tiingoKey := none
    tiingoHttp := fun _ _ => []
    dailyYahoo := fun _ _ => .frame rowsA }

/-- Environment whose daily closes are 0 then 5. -/
def envC2x : Env :=
  { intradayHist := fun _ _ => .frame []
    tiingoKey := none
    tiingoHttp := fun _ _ => []
    dailyYahoo := fun _ _ => .frame [⟨1, none, some 0⟩, ⟨2, none, some 5⟩] }

/-- Environment whose daily closes are 0 then 7. -/
def envC3x : Env :=
  { intradayHist := fun _ _ => .frame []
    tiingoKey := none
    tiingoHttp := fun _ _ => []
    dailyYahoo := fun _ _ => .frame [⟨1, none, some 0⟩, ⟨2, none, some 7⟩] }

/-- Environment whose daily closes are 0 then 11. -/
def envC4x : Env :=
  { intradayHist := fun _ _ => .frame []
    tiingoKey := none
    tiingoHttp := fun _ _ => []
    dailyYahoo := fun _ _ => .frame [⟨3, none, some 0⟩, ⟨4, none, some 11⟩] }

/-- Environment whose 1-minute intraday request raises a rate-limit error
while the 2-minute request succeeds; daily fetches yield nothing. -/
def envC5x : Env :=
  { intradayHist := fun _ i =>
      if i = "1m" then .raises .rateLimited
      else if i = "2m" then .frame rowsA
      else .frame []
    tiingoKey := none
    tiingoHttp := fun _ _ => []
    dailyYahoo := fun _ _ => .frame [] }

/-- Environment in which every upstream fetch yields an empty frame. -/
def envC6x : Env :=
  { intradayHist := fun _ _ => .frame []
    tiingoKey := none
    tiingoHttp := fun _ _ => []
    dailyYahoo := fun _ _ => .frame [] }

/-- A 1-point intraday frame. -/
def oneRow : List Row := [⟨0, none, some 42⟩]

/-- Environment whose 1-minute intraday request yields a single point. -/
def envC7x : Env :=
  { intradayHist := fun _ i => if i = "1m" then .frame oneRow else .frame []
    tiingoKey := none
    tiingoHttp := fun _ _ => []
    dailyYahoo := fun _ _ => .frame [] }

/-- Environment in which the primary symbol has no daily data but the
symbol "R" has the 2-close frame `rowsA`. -/
def envC9w : Env :=
  { intradayHist := fun _ _ => .frame []
    tiingoKey := none
    tiingoHttp := fun _ _ => []
    dailyYahoo := fun s _ => if s = "R" then .frame rowsA else .frame [] }

/-- Environment in which the primary symbol has no daily data and the
symbol "R" has daily closes 0 then 9. -/
def envC9x : Env :=
  { intradayHist := fun _ _ => .frame []
    tiingoKey := none
    tiingoHttp := fun _ _ => []
    dailyYahoo := fun s _ =>
      if s = "R" then .frame [⟨1, none, some 0⟩, ⟨2, none, some 9⟩]
      else .frame [] }

/-- Environment with a Tiingo API key, a usable 2-close Tiingo frame, and a
distinct Yahoo daily frame. -/
def envC10w : Env :=
  { intradayHist := fun _ _ => .frame []
    tiingoKey := some "k"
    tiingoHttp := fun _ _ => rowsA
    dailyYahoo := fun _ _ => .frame [⟨5, none, some 7⟩, ⟨6, none, some 8⟩] }

/-! ## Helper lemmas -/

theorem unusableDaily_eq_false_of_rev {df : List Row} {t1 t2 : Nat} {c1 c2 : ℚ}
    {rest : List (Nat × ℚ)}
    (hrev : (closePairs df).reverse = (t1, c1) :: (t2, c2) :: rest) :
    unusableDaily df = false := by
  have hlen : (closePairs df).length = rest.length + 2 := by
    rw [← List.length_reverse, hrev]
    simp
  have h2 : 2 ≤ (closeVals df).length := by
    simp [closeVals, hlen]
  have hni : df.isEmpty = false := by
    cases df with
    | nil => simp [closePairs] at hrev
    | cons a l => rfl
  simp only [unusableDaily, hni, Bool.false_or, decide_eq_false_iff_not,
    Nat.not_lt]
  exact h2

theorem compute_card_eval (env : Env) (s : String) (rt : Option String)
    (p : String) {t1 t2 : Nat} {c1 c2 : ℚ} {rest : List (Nat × ℚ)}
    (hrev : (closePairs (dailySelected env s rt p)).reverse
      = (t1, c1) :: (t2, c2) :: rest)
    (hz : ¬c2 = 0) :
    compute_card env s rt p = .ok (okCard (dailySelected env s rt p) rt t1 c1 c2) := by
  have hun := unusableDaily_eq_false_of_rev hrev
  simp only [compute_card, hun, Bool.false_eq_true, if_false]
  rw [hrev]
  simp [hz]

theorem compute_card_ok_shape (env : Env) (s : String) (rt : Option String)
    (p : String) (c : Card) (h : compute_card env s rt p = .ok c) :
    c = failCard ∨
      ∃ t1 c1 c2, ¬c2 = 0 ∧ c = okCard (dailySelected env s rt p) rt t1 c1 c2 := by
  simp only [compute_card] at h
  split at h
  · left
    cases h
    rfl
  · split at h
    · rename_i t1 c1 t2 c2 restl heq
      split at h
      · exact absurd h (by simp)
      · rename_i hz
        right
        refine ⟨t1, c1, c2, hz, ?_⟩
        cases h
        rfl
    · left
      cases h
      rfl

theorem dailySelected_of_usable {env : Env} {s : String} {p : String}
    (rt : Option String)
    (h : unusableDaily (fetch_daily env s 15 p) = false) :
    dailySelected env s rt p = fetch_daily env s 15 p := by
  simp [dailySelected, h]

theorem dailySelected_of_rt {env : Env} {s : String} {p : String}
    {rt : Option String}
    (h1 : unusableDaily (fetch_daily env s 15 p) = true)
    (h2 : truthy rt = true) :
    dailySelected env s rt p = fetch_daily env (rt.getD "") 15 p := by
  simp [dailySelected, h1, h2]

/-! ## Claim theorems -/

/-- Claim C1: an intraday series of length at least 10 is supposed to give a
snapshot with mode INTRADAY based on the series' first Open.  The code
contradicts its own docstring here: the whole INTRADAY branch of
`compute_card` (src/app.py:301-321) is commented out, so even with a
12-point intraday series fetched (first Open 300), the returned snapshot is
the daily one — mode "CLOSE", base 100 (the previous close), not 300. -/
theorem C1_intraday_branch_dead :
    10 ≤ intraRows12.length ∧
    fetch_intraday envC1 "SYM" = some (intraRows12, "1m") ∧
    safe_first_open intraRows12 = some 300 ∧
    compute_card envC1 "SYM" none "yahoo" = .ok (okCard rowsA none 2 105 100) ∧
    (okCard rowsA none 2 105 100).mode = some "CLOSE" ∧
    ¬(okCard rowsA none 2 105 100).mode = some "INTRADAY" ∧
    (okCard rowsA none 2 105 100).base = some 100 :=
  ⟨by decide, by decide, by decide, rfl, rfl, by decide, rfl⟩

/-- Claim C2 counterexample: a daily series with the 2 non-null closes 0 and
5 exists (and no intraday data), yet `compute_card` does not return the
claimed snapshot at all — the change computation divides by the
second-to-last close and a ZeroDivisionError escapes. -/
theorem C2_zero_prev_close_counterexample :
    2 ≤ (closeVals (fetch_daily envC2x "X" 15 "yahoo")).length ∧
    compute_card envC2x "X" none "yahoo" = .raised .zeroDivisionError :=
  ⟨by decide, by decide⟩

/-- Claim C2 (amended): when the primary daily fetch has at least 2 non-null
closes and the second-to-last of them is non-zero, `compute_card` returns the
daily snapshot: mode is the daily tag (the literal "CLOSE" in this source,
the spec's DAILY), base is the second-to-last close and now is the last
close.  In `hrev` the reversed close list makes c1 the last close and c2 the
second-to-last.  The non-zero proviso is forced by
the zero-previous-close counterexample. -/
theorem C2_daily_snapshot (env : Env) (s : String) (rt : Option String)
    (p : String) {t1 t2 : Nat} {c1 c2 : ℚ} {rest : List (Nat × ℚ)}
    (hrev : (closePairs (fetch_daily env s 15 p)).reverse
      = (t1, c1) :: (t2, c2) :: rest)
    (hz : ¬c2 = 0) :
    compute_card env s rt p
      = .ok (okCard (fetch_daily env s 15 p) rt t1 c1 c2) ∧
    (okCard (fetch_daily env s 15 p) rt t1 c1 c2).ok = true ∧
    (okCard (fetch_daily env s 15 p) rt t1 c1 c2).mode = some "CLOSE" ∧
    (okCard (fetch_daily env s 15 p) rt t1 c1 c2).base = some c2 ∧
    (okCard (fetch_daily env s 15 p) rt t1 c1 c2).now = some c1 := by
  have hsel := dailySelected_of_usable rt (unusableDaily_eq_false_of_rev hrev)
  have hrev' : (closePairs (dailySelected env s rt p)).reverse
      = (t1, c1) :: (t2, c2) :: rest := by rw [hsel]; exact hrev
  have h := compute_card_eval env s rt p hrev' hz
  rw [hsel] at h
  exact ⟨h, rfl, rfl, rfl, rfl⟩

/-- Witness for C2: with daily closes 100 then 105, the snapshot has
mode "CLOSE", base 100, now 105. -/
theorem C2_daily_snapshot_witness :
    compute_card envA "W" none "yahoo"
      = .ok (okCard (fetch_daily envA "W" 15 "yahoo") none 2 105 100) ∧
    (okCard (fetch_daily envA "W" 15 "yahoo") none 2 105 100).ok = true ∧
    (okCard (fetch_daily envA "W" 15 "yahoo") none 2 105 100).mode
      = some "CLOSE" ∧
    (okCard (fetch_daily envA "W" 15 "yahoo") none 2 105 100).base
      = some 100 ∧
    (okCard (fetch_daily envA "W" 15 "yahoo") none 2 105 100).now
      = some 105 := by
  have hrev : (closePairs (fetch_daily envA "W" 15 "yahoo")).reverse
      = (2, (105 : ℚ)) :: (1, (100 : ℚ)) :: [] := by decide
  exact C2_daily_snapshot envA "W" none "yahoo" hrev (by decide)

/-- Claim C3 counterexample: with daily closes 0 then 7 the base would be
zero, and instead of returning changePct = null the code raises
ZeroDivisionError. -/
theorem C3_zero_base_counterexample :
    closeVals (fetch_daily envC3x "Y" 15 "yahoo") = [0, 7] ∧
    compute_card envC3x "Y" none "yahoo" = .raised .zeroDivisionError :=
  ⟨by decide, by decide⟩

/-- Claim C3 (amended): in every snapshot `compute_card` actually returns,
pct is the exact value (now/base - 1) * 100 whenever base is present, base
is then automatically non-zero, and pct is absent whenever base is absent.
The claim's remaining case — base present but zero — never yields a
snapshot: the code raises ZeroDivisionError there instead of returning a
null changePct (see the zero-base counterexample). -/
theorem C3_changePct (env : Env) (s : String) (rt : Option String)
    (p : String) (c : Card) (h : compute_card env s rt p = .ok c) :
    (c.base = none → c.pct = none) ∧
    (∀ b : ℚ, c.base = some b → ¬b = 0) ∧
    (∀ n b : ℚ, c.now = some n → c.base = some b →
      c.pct = some ((n / b - 1) * 100)) := by
  rcases compute_card_ok_shape env s rt p c h with hc | ⟨t1, c1, c2, hz, hc⟩
  · subst hc
    refine ⟨fun _ => rfl, ?_, ?_⟩
    · intro b hb
      simp [failCard] at hb
    · intro n b _ hb
      simp [failCard] at hb
  · subst hc
    refine ⟨?_, ?_, ?_⟩
    · intro hb
      simp [okCard] at hb
    · intro b hb
      simp only [okCard, Option.some.injEq] at hb
      subst hb
      exact hz
    · intro n b hn hb
      simp only [okCard, Option.some.injEq] at hn hb
      subst hn
      subst hb
      rfl

/-- Witness for C3: with closes 100 then 105, pct is exactly
(105/100 - 1) * 100. -/
theorem C3_changePct_witness :
    (okCard rowsA none 2 105 100).pct
      = some (((105 : ℚ) / 100 - 1) * 100) :=
  (C3_changePct envA "W" none "yahoo" (okCard rowsA none 2 105 100)
    rfl).2.2 105 100 rfl rfl

/-- Claim C4: `compute_card` is supposed to be total, yet with daily closes
0 then 11 (second-to-last close zero) the division at src/app.py:337 raises
ZeroDivisionError past its boundary, with no handler in the caller. -/
theorem C4_zero_prev_close_raises :
    (closeVals (fetch_daily envC4x "S" 15 "yahoo")).length = 2 ∧
    compute_card envC4x "S" none "yahoo" = .raised .zeroDivisionError :=
  ⟨by decide, by decide⟩

/-- Claim C5 counterexample: the upstream provider signals rate limiting on
the 1-minute tier, yet resolution does not stop — the 2-minute tier is still
requested and its series is returned as a normal success, so no UNAVAILABLE
rate-limit snapshot arises. -/
theorem C5_rate_limit_not_aborting_counterexample :
    envC5x.intradayHist "S" "1m" = .raises .rateLimited ∧
    fetchIntradayCalls envC5x "S" = ["1m", "2m"] ∧
    fetch_intraday envC5x "S" = some (rowsA, "2m") :=
  ⟨by decide, by decide, by decide⟩

/-- Claim C5 (amended): a RateLimited (or any other) exception on the first
intraday tier is swallowed like any other per-tier failure — the remaining
tiers are still tried — and no rate-limit-specific failure reason exists:
the only reason a snapshot can carry is the generic unavailable message. -/
theorem C5_tier_error_skipped (env : Env) (s : String) (e : UpErr)
    (h : env.intradayHist s "1m" = .raises e) :
    fetch_intraday env s
      = (fetchIntradayGo (env.intradayHist s) ["2m", "5m", "15m"]).1 ∧
    fetchIntradayCalls env s
      = "1m" :: (fetchIntradayGo (env.intradayHist s) ["2m", "5m", "15m"]).2 ∧
    (∀ rt p c, compute_card env s rt p = .ok c →
      c.reason = none ∨ c.reason = some "取得できませんでした") := by
  refine ⟨?_, ?_, ?_⟩
  · simp [fetch_intraday, intradayIntervals, fetchIntradayGo, h]
  · simp [fetchIntradayCalls, intradayIntervals, fetchIntradayGo, h]
  · intro rt p c hc
    rcases compute_card_ok_shape env s rt p c hc with hc' | ⟨t1, c1, c2, hz, hc'⟩
    · subst hc'
      right
      rfl
    · subst hc'
      left
      rfl

/-- Witness for C5: in the concrete rate-limited environment the 2-minute
tier result is returned, and the snapshot reason stays generic. -/
theorem C5_tier_error_skipped_witness :
    fetch_intraday envC5x "S"
      = (fetchIntradayGo (envC5x.intradayHist "S") ["2m", "5m", "15m"]).1 ∧
    (failCard.reason = none ∨ failCard.reason = some "取得できませんでした") := by
  have h := C5_tier_error_skipped envC5x "S" .rateLimited (by decide)
  exact ⟨h.1, h.2.2 none "yahoo" failCard (by decide)⟩

/-- Claim C6 counterexample: with both the intraday and daily fallbacks
unusable, `compute_card` gives up directly with the ok=false generic
snapshot — it contains no quote price (now is absent) and no QUOTE_ONLY
mode; the source has no last-traded-price request at all. -/
theorem C6_no_quote_only_counterexample :
    compute_card envC6x "S" none "yahoo" = .ok failCard ∧
    failCard.ok = false ∧ failCard.mode = none ∧ failCard.now = none :=
  ⟨by decide, rfl, rfl, rfl⟩

/-- Claim C6 (amended): `compute_card` has no quote-only fallback: no
returned snapshot ever has mode QUOTE_ONLY, and when the selected daily
frame is unusable the result is directly the ok=false generic snapshot. -/
theorem C6_no_quote_only (env : Env) (s : String) (rt : Option String)
    (p : String) :
    (∀ c, compute_card env s rt p = .ok c → ¬c.mode = some "QUOTE_ONLY") ∧
    (unusableDaily (dailySelected env s rt p) = true →
      compute_card env s rt p = .ok failCard) := by
  constructor
  · intro c hc
    rcases compute_card_ok_shape env s rt p c hc with hc' | ⟨t1, c1, c2, hz, hc'⟩
    · subst hc'
      intro hm
      simp [failCard] at hm
    · subst hc'
      intro hm
      simp only [okCard, Option.some.injEq] at hm
      exact absurd hm (by decide)
  · intro hu
    simp [compute_card, hu]

/-- Witness for C6: the all-empty environment yields the ok=false snapshot,
whose mode is not QUOTE_ONLY. -/
theorem C6_no_quote_only_witness :
    ¬failCard.mode = some "QUOTE_ONLY" ∧
    compute_card envC6x "S" none "yahoo" = .ok failCard :=
  ⟨(C6_no_quote_only envC6x "S" none "yahoo").1 failCard (by decide),
   (C6_no_quote_only envC6x "S" none "yahoo").2 (by decide)⟩

/-- Claim C7 counterexample: the 1-minute tier returns a single-point series
(far below the claimed ~10-point minimum), yet `fetch_intraday` accepts it
as usable and returns it without trying any further tier. -/
theorem C7_single_point_usable_counterexample :
    (dropnaClose oneRow).length = 1 ∧
    fetchIntradayCalls envC7x "S" = ["1m"] ∧
    fetch_intraday envC7x "S" = some (oneRow, "1m") :=
  ⟨by decide, by decide, by decide⟩

/-- Claim C7 (amended): the tiers are tried in the order 1m, 2m, 5m, 15m
(each requested with a 1-day lookback, src/app.py:257), and the first tier
whose frame is non-empty after dropping rows with a null Close — at least
one point, with no ~10-point minimum — is returned together with its
interval tag; a tier whose frame is empty after that drop is skipped. -/
theorem C7_first_usable_tier :
    intradayIntervals = ["1m", "2m", "5m", "15m"] ∧
    (∀ (hist : String → YfResult) (i : String) (rest : List String)
        (rows : List Row), hist i = .frame rows → ¬dropnaClose rows = [] →
      fetchIntradayGo hist (i :: rest) = (some (dropnaClose rows, i), [i])) ∧
    (∀ (hist : String → YfResult) (i : String) (rest : List String)
        (rows : List Row), hist i = .frame rows → dropnaClose rows = [] →
      fetchIntradayGo hist (i :: rest)
        = ((fetchIntradayGo hist rest).1,
            i :: (fetchIntradayGo hist rest).2)) := by
  refine ⟨rfl, ?_, ?_⟩
  · intro hist i rest rows h hne
    have hrne : rows.isEmpty = false := by
      cases rows with
      | nil => exact absurd rfl hne
      | cons a l => rfl
    have hdne : (dropnaClose rows).isEmpty = false := by
      cases hd : dropnaClose rows with
      | nil => exact absurd hd hne
      | cons a l => rfl
    simp [fetchIntradayGo, h, hrne, hdne]
  · intro hist i rest rows h hd
    cases hrows : rows.isEmpty with
    | true => simp [fetchIntradayGo, h, hrows]
    | false => simp [fetchIntradayGo, h, hrows, hd]

/-- Witness for C7: the single-point 1-minute frame is returned as the first
usable tier. -/
theorem C7_first_usable_tier_witness :
    fetchIntradayGo (envC7x.intradayHist "S") ["1m", "2m", "5m", "15m"]
      = (some (dropnaClose oneRow, "1m"), ["1m"]) :=
  (C7_first_usable_tier).2.1 (envC7x.intradayHist "S") "1m"
    ["2m", "5m", "15m"] oneRow (by decide) (by decide)

/-- Claim C8: starting from an empty cache, two reads of the same
(symbol, tier-class) key within the TTL make exactly one upstream
invocation, and a third read after the TTL has expired makes exactly one
more.  (The cache semantics are modelled from the spec, since
`st.cache_data` is framework code; the TTL values `TTL_DAILY` and
`TTL_INTRADAY` come from src/app.py:157-158.) -/
theorem C8_cache_ttl (fetcher : String × String → List Row) (ttl : Nat)
    (key : String × String) (t1 t2 t3 : Nat)
    (hin : t2 - t1 < ttl) (hout : ttl ≤ t3 - t1) :
    upstreamCount fetcher ttl [(key, t1), (key, t2)] ⟨[]⟩ = 1 ∧
    upstreamCount fetcher ttl [(key, t1), (key, t2), (key, t3)] ⟨[]⟩ = 2 := by
  have hni : ¬t3 - t1 < ttl := Nat.not_lt.mpr hout
  constructor
  · simp [upstreamCount, getOrFetch, lookupEntry, List.find?, hin]
  · simp [upstreamCount, getOrFetch, lookupEntry, List.find?, hin, hni]

/-- Witness for C8: with the source's intraday TTL of 180 s, reads at 0 s
and 60 s make one upstream call; a further read at 200 s makes a second. -/
theorem C8_cache_ttl_witness :
    upstreamCount (fun _ => []) TTL_INTRADAY
      [(("AAPL", "intraday"), 0), (("AAPL", "intraday"), 60)] ⟨[]⟩ = 1 ∧
    upstreamCount (fun _ => []) TTL_INTRADAY
      [(("AAPL", "intraday"), 0), (("AAPL", "intraday"), 60),
        (("AAPL", "intraday"), 200)] ⟨[]⟩ = 2 :=
  C8_cache_ttl (fun _ => []) TTL_INTRADAY ("AAPL", "intraday") 0 60 200
    (by decide) (by decide)

/-- Claim C9 counterexample: the primary symbol's daily frame is unusable
and the rt_symbol retry yields the 2 closes 0 and 9, yet no ok=true snapshot
is returned: the division by the retry's second-to-last close (zero) raises
ZeroDivisionError. -/
theorem C9_rt_zero_prev_counterexample :
    unusableDaily (fetch_daily envC9x "P" 15 "yahoo") = true ∧
    2 ≤ (closeVals (fetch_daily envC9x "R" 15 "yahoo")).length ∧
    compute_card envC9x "P" (some "R") "yahoo" = .raised .zeroDivisionError :=
  ⟨by decide, by decide, by decide⟩

/-- Claim C9 (amended): when a non-empty rt_symbol is present, the primary
symbol's daily frame is unusable (empty or fewer than 2 non-null closes),
the retry with the rt_symbol (same provider) has at least 2 non-null closes,
and — as forced by the counterexample — its second-to-last close is
non-zero, then the returned snapshot is ok=true and computed from the
rt_symbol's daily closes. -/
theorem C9_rt_daily_retry (env : Env) (s rtS p : String)
    {t1 t2 : Nat} {c1 c2 : ℚ} {rest : List (Nat × ℚ)}
    (hrt : truthy (some rtS) = true)
    (hprim : unusableDaily (fetch_daily env s 15 p) = true)
    (hrev : (closePairs (fetch_daily env rtS 15 p)).reverse
      = (t1, c1) :: (t2, c2) :: rest)
    (hz : ¬c2 = 0) :
    compute_card env s (some rtS) p
      = .ok (okCard (fetch_daily env rtS 15 p) (some rtS) t1 c1 c2) ∧
    (okCard (fetch_daily env rtS 15 p) (some rtS) t1 c1 c2).ok = true ∧
    (okCard (fetch_daily env rtS 15 p) (some rtS) t1 c1 c2).now = some c1 ∧
    (okCard (fetch_daily env rtS 15 p) (some rtS) t1 c1 c2).base = some c2 := by
  have hsel := dailySelected_of_rt hprim hrt
  have hsel' : dailySelected env s (some rtS) p = fetch_daily env rtS 15 p := hsel
  have hrev' : (closePairs (dailySelected env s (some rtS) p)).reverse
      = (t1, c1) :: (t2, c2) :: rest := by rw [hsel']; exact hrev
  have h := compute_card_eval env s (some rtS) p hrev' hz
  rw [hsel'] at h
  exact ⟨h, rfl, rfl, rfl⟩

/-- Witness for C9: primary symbol "P" has no daily data; the retry with
rt_symbol "R" yields closes 100 then 105 and the snapshot is built from
them. -/
theorem C9_rt_daily_retry_witness :
    compute_card envC9w "P" (some "R") "yahoo"
      = .ok (okCard (fetch_daily envC9w "R" 15 "yahoo") (some "R") 2 105 100) ∧
    (okCard (fetch_daily envC9w "R" 15 "yahoo") (some "R") 2 105 100).ok
      = true ∧
    (okCard (fetch_daily envC9w "R" 15 "yahoo") (some "R") 2 105 100).now
      = some 105 ∧
    (okCard (fetch_daily envC9w "R" 15 "yahoo") (some "R") 2 105 100).base
      = some 100 := by
  have hrev : (closePairs (fetch_daily envC9w "R" 15 "yahoo")).reverse
      = (2, (105 : ℚ)) :: (1, (100 : ℚ)) :: [] := by decide
  exact C9_rt_daily_retry envC9w "P" "R" "yahoo" (by decide) (by decide)
    hrev (by decide)

/-- Claim C10: `fetch_daily` returns the Tiingo frame exactly when the
provider is "tiingo" and that frame is non-empty with at least 2 non-null
closes; in every other case — another provider, a missing API key (which
makes the Tiingo frame empty), or a short Tiingo result — it returns the
Yahoo daily result. -/
theorem C10_fetch_daily_provider (env : Env) (s : String) (d : Nat) :
    ((fetch_daily_tiingo env s d).isEmpty = false →
      2 ≤ (closeVals (fetch_daily_tiingo env s d)).length →
      fetch_daily env s d "tiingo" = fetch_daily_tiingo env s d) ∧
    ((fetch_daily_tiingo env s d).isEmpty = true ∨
        (closeVals (fetch_daily_tiingo env s d)).length < 2 →
      fetch_daily env s d "tiingo" = fetch_daily_yahoo env s d) ∧
    (∀ p, ¬p = "tiingo" → fetch_daily env s d p = fetch_daily_yahoo env s d) ∧
    (env.tiingoKey = none →
      fetch_daily env s d "tiingo" = fetch_daily_yahoo env s d) := by
  refine ⟨?_, ?_, ?_, ?_⟩
  · intro h1 h2
    simp [fetch_daily, h1, h2]
  · intro h
    have hnc : ¬(¬(fetch_daily_tiingo env s d).isEmpty = true ∧
        2 ≤ (closeVals (fetch_daily_tiingo env s d)).length) := by
      rcases h with h | h
      · intro hc
        exact hc.1 h
      · intro hc
        omega
    have hif : fetch_daily env s d "tiingo"
        = if ¬(fetch_daily_tiingo env s d).isEmpty = true ∧
            2 ≤ (closeVals (fetch_daily_tiingo env s d)).length then
          fetch_daily_tiingo env s d
        else fetch_daily_yahoo env s d := by
      simp only [fetch_daily, if_pos]
    rw [hif, if_neg hnc]
  · intro p hp
    simp [fetch_daily, hp]
  · intro hk
    have ht : fetch_daily_tiingo env s d = [] := by
      simp [fetch_daily_tiingo, hk]
    simp [fetch_daily, ht]

/-- Witness for C10: with a key and a usable 2-close Tiingo frame the Tiingo
result is returned for provider "tiingo", while provider "yahoo" gets the
Yahoo frame. -/
theorem C10_fetch_daily_provider_witness :
    fetch_daily envC10w "F" 15 "tiingo" = fetch_daily_tiingo envC10w "F" 15 ∧
    fetch_daily envC10w "F" 15 "yahoo" = fetch_daily_yahoo envC10w "F" 15 :=
  ⟨(C10_fetch_daily_provider envC10w "F" 15).1 (by decide) (by decide),
   (C10_fetch_daily_provider envC10w "F" 15).2.2.1 "yahoo" (by decide)⟩

end MarketDashboard
